import Mathlib

/-!
Verification of the GUI bookkeeping logic of the `cn_video` collaboration
client (`src/client/gui_manager.py`).  The widget-bound state of each frame
class is embedded as a Lean structure, and the methods the claims talk about
are embedded as pure functions over those structures.  Strings produced with
Python f-strings are modelled as `List Char`; `str(int)` is modelled by the
decimal printer `natStr` below.
-/

namespace CnVideo

/-! ### Decimal rendering of naturals (model of Python `str(int)` / f-strings) -/

/-- The character for a single decimal digit value. -/
def decDigitChar (d : Nat) : Char := Char.ofNat (48 + d)

/-- Accumulator form of the decimal printer: prepends the digits of `n`
(most significant first) to `acc`. -/
def toDecAux (n : Nat) (acc : List Char) : List Char :=
  if h : n = 0 then acc
  else toDecAux (n / 10) (decDigitChar (n % 10) :: acc)
decreasing_by exact Nat.div_lt_self (Nat.pos_of_ne_zero h) (by decide)

/-- Decimal representation of a natural number, as Python's `str` renders it. -/
def natStr (n : Nat) : List Char :=
  if n = 0 then ['0'] else toDecAux n []

/-- Decimal parsing, used to establish that `natStr` is injective. -/
def decVal (l : List Char) : Nat :=
  l.foldl (fun a c => a * 10 + (c.toNat - 48)) 0

theorem decDigitChar_toNat : ∀ d, d < 10 → (decDigitChar d).toNat = 48 + d := by
  decide

theorem decDigitChar_isDigit : ∀ d, d < 10 → (decDigitChar d).isDigit = true := by
  decide

theorem toDecAux_eq_append (n : Nat) :
    ∀ acc, toDecAux n acc = toDecAux n [] ++ acc := by
  induction n using Nat.strong_induction_on with
  | _ n ih =>
    intro acc
    by_cases h : n = 0
    · simp [toDecAux, h]
    · conv_lhs => rw [toDecAux.eq_def]
      conv_rhs => rw [toDecAux.eq_def]
      simp only [h, dite_false]
      have hd : n / 10 < n := Nat.div_lt_self (Nat.pos_of_ne_zero h) (by decide)
      rw [ih _ hd (decDigitChar (n % 10) :: acc), ih _ hd [decDigitChar (n % 10)]]
      simp

theorem decVal_append_singleton (l : List Char) (c : Char) :
    decVal (l ++ [c]) = decVal l * 10 + (c.toNat - 48) := by
  simp [decVal, List.foldl_append]

theorem decVal_toDecAux (n : Nat) : decVal (toDecAux n []) = n := by
  induction n using Nat.strong_induction_on with
  | _ n ih =>
    by_cases h : n = 0
    · simp [toDecAux, h, decVal]
    · conv_lhs => rw [toDecAux.eq_def]
      simp only [h, dite_false]
      rw [toDecAux_eq_append, decVal_append_singleton]
      have hd : n / 10 < n := Nat.div_lt_self (Nat.pos_of_ne_zero h) (by decide)
      rw [ih _ hd]
      have hm : n % 10 < 10 := Nat.mod_lt _ (by decide)
      rw [decDigitChar_toNat _ hm]
      omega

theorem decVal_natStr (n : Nat) : decVal (natStr n) = n := by
  by_cases h : n = 0
  · simp [natStr, h, decVal]
  · simp only [natStr, h, if_false]
    exact decVal_toDecAux n

theorem natStr_injective : Function.Injective natStr := by
  intro a b hab
  have := congrArg decVal hab
  rwa [decVal_natStr, decVal_natStr] at this

theorem mem_toDecAux (n : Nat) :
    ∀ acc c, c ∈ toDecAux n acc → c ∈ acc ∨ c.isDigit = true := by
  induction n using Nat.strong_induction_on with
  | _ n ih =>
    intro acc c hc
    by_cases h : n = 0
    · rw [toDecAux.eq_def] at hc; simp only [h, dite_true] at hc; exact Or.inl hc
    · rw [toDecAux.eq_def] at hc
      simp only [h, dite_false] at hc
      have hd : n / 10 < n := Nat.div_lt_self (Nat.pos_of_ne_zero h) (by decide)
      rcases ih _ hd _ c hc with hmem | hdig
      · rcases List.mem_cons.mp hmem with heq | htail
        · subst heq
          exact Or.inr (decDigitChar_isDigit _ (Nat.mod_lt _ (by decide)))
        · exact Or.inl htail
      · exact Or.inr hdig

theorem mem_natStr_isDigit {n : Nat} {c : Char} (hc : c ∈ natStr n) :
    c.isDigit = true := by
  by_cases h : n = 0
  · simp only [natStr, h, if_true] at hc
    simp only [List.mem_singleton] at hc
    subst hc; decide
  · simp only [natStr, h, if_false] at hc
    rcases mem_toDecAux n [] c hc with hmem | hdig
    · simp at hmem
    · exact hdig

theorem x_not_mem_natStr (n : Nat) : 'x' ∉ natStr n := by
  intro h
  have := mem_natStr_isDigit h
  simp at this

theorem underscore_not_mem_natStr (n : Nat) : '_' ∉ natStr n := by
  intro h
  have := mem_natStr_isDigit h
  simp at this

/-- Splitting a list at a separator that occurs in neither prefix is unique. -/
theorem append_sep_inj {α} (sep : α) :
    ∀ (l₁ : List α) (m₁ : List α) (l₂ m₂ : List α), sep ∉ l₁ → sep ∉ m₁ →
      l₁ ++ sep :: l₂ = m₁ ++ sep :: m₂ → l₁ = m₁ ∧ l₂ = m₂ := by
  intro l₁
  induction l₁ with
  | nil =>
    intro m₁ l₂ m₂ _ hm heq
    cases m₁ with
    | nil => simpa using heq
    | cons a m₁' =>
      simp only [List.nil_append, List.cons_append, List.cons.injEq] at heq
      exact absurd (heq.1 ▸ List.mem_cons_self a m₁') (heq.1 ▸ hm)
  | cons a l₁' ih =>
    intro m₁ l₂ m₂ hl hm heq
    cases m₁ with
    | nil =>
      simp only [List.cons_append, List.nil_append, List.cons.injEq] at heq
      exact absurd (heq.1 ▸ List.mem_cons_self a l₁') (heq.1 ▸ hl)
    | cons b m₁' =>
      simp only [List.cons_append, List.cons.injEq] at heq
      obtain ⟨hab, heq'⟩ := heq
      have := ih m₁' l₂ m₂ (fun h => hl (List.mem_cons_of_mem a h))
        (fun h => hm (List.mem_cons_of_mem b h)) heq'
      exact ⟨by rw [hab, this.1], this.2⟩

/-! ### The screen-frame scaling cache key
`ScreenShareFrame.display_screen_frame` builds the cache key with the
f-string `f"{img_width}x{img_height}_{canvas_width}x{canvas_height}"`. -/

/-- The cache key string of `display_screen_frame`. -/
def scaleKey (iw ih cw ch : Nat) : List Char :=
  natStr iw ++ 'x' :: (natStr ih ++ '_' :: (natStr cw ++ 'x' :: natStr ch))

theorem underscore_not_mem_half (a b : Nat) :
    '_' ∉ natStr a ++ 'x' :: natStr b := by
  intro h
  rcases List.mem_append.mp h with h1 | h2
  · exact underscore_not_mem_natStr a h1
  · rcases List.mem_cons.mp h2 with h3 | h4
    · exact absurd h3 (by decide)
    · exact underscore_not_mem_natStr b h4

theorem half_key_inj {a b a' b' : Nat}
    (h : natStr a ++ 'x' :: natStr b = natStr a' ++ 'x' :: natStr b') :
    a = a' ∧ b = b' := by
  have := append_sep_inj 'x' (natStr a) (natStr a') (natStr b) (natStr b')
    (x_not_mem_natStr a) (x_not_mem_natStr a') h
  exact ⟨natStr_injective this.1, natStr_injective this.2⟩

theorem scaleKey_inj {iw ih cw ch iw' ih' cw' ch' : Nat}
    (h : scaleKey iw ih cw ch = scaleKey iw' ih' cw' ch') :
    iw = iw' ∧ ih = ih' ∧ cw = cw' ∧ ch = ch' := by
  unfold scaleKey at h
  have h2 : (natStr iw ++ 'x' :: natStr ih) ++ '_' :: (natStr cw ++ 'x' :: natStr ch)
      = (natStr iw' ++ 'x' :: natStr ih') ++ '_' :: (natStr cw' ++ 'x' :: natStr ch') := by
    simpa [List.append_assoc] using h
  have hsplit := append_sep_inj '_' _ _ _ _
    (underscore_not_mem_half iw ih) (underscore_not_mem_half iw' ih') h2
  have hl := half_key_inj hsplit.1
  have hr := half_key_inj hsplit.2
  exact ⟨hl.1, hl.2, hr.1, hr.2⟩

/-! ### `ChatFrame` — chat history and message sending
Embeds the chat-history state of `ChatFrame` (`gui_manager.py`, lines
1430-1693; identical in `gui_manager_tabbed.py`) together with the
status label and entry widget text touched by `_send_message`. -/

/-- One entry of `ChatFrame.chat_history` (a Python dict with the keys
`username`, `message`, `timestamp`, `is_own_message`, `message_type`). -/
structure MessageEntry where
  username : List Char
  message : List Char
  timestamp : Nat
  is_own_message : Bool
  message_type : List Char
deriving DecidableEq, Inhabited

/-- `self.max_history_size = 500` set in `ChatFrame.__init__`. -/
def max_history_size : Nat := 500

/-- The state of a `ChatFrame` that the embedded methods read and write:
the history list, the text held by the entry widget, and the status label. -/
structure ChatFrame where
  chat_history : List MessageEntry
  entry_text : List Char
  status_text : List Char
  status_is_error : Bool
deriving DecidableEq, Inhabited

/-- A fresh `ChatFrame` as `__init__` leaves it. -/
def ChatFrame.init : ChatFrame :=
  { chat_history := [], entry_text := [],
    status_text := "Ready".data, status_is_error := false }

/-- `ChatFrame.add_message`: appends the entry, then truncates to the most
recent `max_history_size` entries (`self.chat_history[-self.max_history_size:]`). -/
def ChatFrame.add_message (f : ChatFrame) (username message : List Char)
    (timestamp : Nat) (is_own_message : Bool) (message_type : List Char) :
    ChatFrame :=
  let entry : MessageEntry :=
    { username := username, message := message, timestamp := timestamp,
      is_own_message := is_own_message, message_type := message_type }
  let h := f.chat_history ++ [entry]
  let h := if h.length > max_history_size
    then h.drop (h.length - max_history_size) else h
  { f with chat_history := h }

/-- `ChatFrame.add_system_message`: `add_message("System", message, ts, False, 'system')`. -/
def ChatFrame.add_system_message (f : ChatFrame) (message : List Char)
    (timestamp : Nat) : ChatFrame :=
  f.add_message "System".data message timestamp false "system".data

/-- `ChatFrame.add_error_message`: `add_message("Error", message, ts, False, 'error')`. -/
def ChatFrame.add_error_message (f : ChatFrame) (message : List Char)
    (timestamp : Nat) : ChatFrame :=
  f.add_message "Error".data message timestamp false "error".data

/-- Stable insertion of an entry into a timestamp-sorted list, keeping an
equal-timestamp entry before the inserted one (model of the stability of
Python's `sorted` with `key=lambda x: x.get('timestamp', ...)`). -/
def insertByTimestamp (m : MessageEntry) : List MessageEntry → List MessageEntry
  | [] => [m]
  | x :: xs =>
    if m.timestamp < x.timestamp then m :: x :: xs
    else x :: insertByTimestamp m xs

/-- Stable sort by timestamp (model of
`sorted(history, key=lambda x: x.get('timestamp', datetime.min))`). -/
def sortByTimestamp (l : List MessageEntry) : List MessageEntry :=
  l.foldl (fun acc m => insertByTimestamp m acc) []

/-- `ChatFrame.load_chat_history`: clears the history, sorts the supplied
list chronologically and appends every entry of it to `chat_history`. -/
def ChatFrame.load_chat_history (f : ChatFrame) (history : List MessageEntry) :
    ChatFrame :=
  { f with chat_history := sortByTimestamp history }

theorem length_insertByTimestamp (m : MessageEntry) (l : List MessageEntry) :
    (insertByTimestamp m l).length = l.length + 1 := by
  induction l with
  | nil => rfl
  | cons x xs ih =>
    unfold insertByTimestamp
    by_cases h : m.timestamp < x.timestamp <;> simp [h, ih]

theorem length_sortByTimestamp (l : List MessageEntry) :
    (sortByTimestamp l).length = l.length := by
  suffices h : ∀ acc : List MessageEntry,
      (l.foldl (fun acc m => insertByTimestamp m acc) acc).length
        = acc.length + l.length by
    simpa [sortByTimestamp] using h []
  induction l with
  | nil => intro acc; simp
  | cons x xs ih =>
    intro acc
    simp only [List.foldl_cons]
    rw [ih (insertByTimestamp x acc), length_insertByTimestamp]
    simp only [List.length_cons]
    omega

/-- The operations of the claim that mutate `chat_history`. -/
inductive ChatOp where
  | add (username message : List Char) (timestamp : Nat)
      (is_own_message : Bool) (message_type : List Char)
  | addSystem (message : List Char) (timestamp : Nat)
  | addError (message : List Char) (timestamp : Nat)
  | load (history : List MessageEntry)

def ChatFrame.applyOp (f : ChatFrame) : ChatOp → ChatFrame
  | .add u m ts own ty => f.add_message u m ts own ty
  | .addSystem m ts => f.add_system_message m ts
  | .addError m ts => f.add_error_message m ts
  | .load h => f.load_chat_history h

def ChatFrame.applyOps (f : ChatFrame) (ops : List ChatOp) : ChatFrame :=
  ops.foldl ChatFrame.applyOp f

theorem add_message_length_le (f : ChatFrame) (u m : List Char) (ts : Nat)
    (own : Bool) (ty : List Char) (h : f.chat_history.length ≤ max_history_size) :
    (f.add_message u m ts own ty).chat_history.length ≤ max_history_size := by
  unfold ChatFrame.add_message
  simp only [List.length_append, List.length_cons, List.length_nil]
  by_cases hgt : f.chat_history.length + 1 > max_history_size
  · simp only [hgt, if_true, List.length_drop, List.length_append,
      List.length_cons, List.length_nil]
    omega
  · simp only [hgt, if_false]
    simp only [List.length_append, List.length_cons, List.length_nil] at hgt ⊢
    omega

/-- Python `str.strip()`: removes leading and trailing whitespace. -/
def pyStrip (l : List Char) : List Char :=
  ((l.dropWhile Char.isWhitespace).reverse.dropWhile Char.isWhitespace).reverse

/-- Result of `ChatFrame._send_message`: the updated frame state and whether
the registered message callback was invoked. -/
structure SendResult where
  frame : ChatFrame
  callback_invoked : Bool

/-- `ChatFrame._send_message`: strips the entry text, rejects the empty and
the over-1000-character cases with an error status, otherwise invokes the
callback when one is registered; the entry is cleared and a success status
shown only when the callback returns, and a raising callback is caught and
surfaced as an error status. -/
def ChatFrame.send_message (f : ChatFrame)
    (callback : Option (List Char → Except (List Char) Unit)) : SendResult :=
  let message_text := pyStrip f.entry_text
  if message_text = [] then
    { frame := { f with
                   status_text := "Cannot send empty message".data,
                   status_is_error := true },
      callback_invoked := false }
  else if message_text.length > 1000 then
    { frame := { f with
                   status_text := "Message too long (max 1000 characters)".data,
                   status_is_error := true },
      callback_invoked := false }
  else
    match callback with
    | some cb =>
      match cb message_text with
      | .ok _ =>
        { frame := { f with
                       entry_text := [],
                       status_text := "Message sent".data,
                       status_is_error := false },
          callback_invoked := true }
      | .error e =>
        { frame := { f with
                       status_text := "Failed to send message: ".data ++ e,
                       status_is_error := true },
          callback_invoked := true }
    | none =>
      { frame := { f with
                     status_text := "Not connected".data,
                     status_is_error := true },
        callback_invoked := false }

/-- C1 (counterexample): `load_chat_history` performs no capping, so loading
501 entries leaves `chat_history` with 501 > 500 entries, refuting the claim
that every history-mutating operation keeps the length at most 500. -/
theorem chat_history_cap_counterexample :
    ¬ ((ChatFrame.init.load_chat_history
        (List.replicate 501 (default : MessageEntry))).chat_history.length
          ≤ max_history_size) := by
  have h1 : (ChatFrame.init.load_chat_history
      (List.replicate 501 (default : MessageEntry))).chat_history.length = 501 := by
    rw [ChatFrame.load_chat_history, length_sortByTimestamp, List.length_replicate]
  rw [h1, max_history_size]
  omega

/-- C1 (amended): every sequence of `add_message` / `add_system_message` /
`add_error_message` / `load_chat_history` operations in which each loaded
history has at most 500 entries keeps `chat_history` at most
`max_history_size = 500` entries long; and an `add_message` on a history
already at the cap keeps exactly the most recent 500 entries (the appended
list with its oldest entry dropped). -/
theorem chat_history_cap :
    (∀ (f : ChatFrame) (ops : List ChatOp),
        f.chat_history.length ≤ max_history_size →
        (∀ h, ChatOp.load h ∈ ops → h.length ≤ max_history_size) →
        (f.applyOps ops).chat_history.length ≤ max_history_size)
    ∧ (∀ (f : ChatFrame) (u m : List Char) (ts : Nat) (own : Bool)
          (ty : List Char),
        f.chat_history.length = max_history_size →
        (f.add_message u m ts own ty).chat_history
          = (f.chat_history ++ [MessageEntry.mk u m ts own ty]).drop 1) := by
  constructor
  · intro f ops
    induction ops generalizing f with
    | nil => intro hf _; simpa [ChatFrame.applyOps] using hf
    | cons op ops ih =>
      intro hf hloads
      have hstep : (f.applyOp op).chat_history.length ≤ max_history_size := by
        cases op with
        | add u m ts own ty => exact add_message_length_le f u m ts own ty hf
        | addSystem m ts => exact add_message_length_le f _ _ _ _ _ hf
        | addError m ts => exact add_message_length_le f _ _ _ _ _ hf
        | load h =>
          have := hloads h (by simp)
          simpa [ChatFrame.applyOp, ChatFrame.load_chat_history,
            length_sortByTimestamp] using this
      have : (f.applyOps (op :: ops)) = ((f.applyOp op).applyOps ops) := by
        simp [ChatFrame.applyOps]
      rw [this]
      exact ih _ hstep (fun h hm => hloads h (List.mem_cons_of_mem _ hm))
  · intro f u m ts own ty hf
    unfold ChatFrame.add_message
    have hlen : (f.chat_history
        ++ [MessageEntry.mk u m ts own ty]).length = max_history_size + 1 := by
      simp [hf]
    simp only [hlen]
    have hgt : max_history_size + 1 > max_history_size := Nat.lt_succ_self _
    have hone : max_history_size + 1 - max_history_size = 1 := by omega
    simp [hgt, hone]

/-- Witness for `chat_history_cap` at a concrete frame and operation list. -/
theorem chat_history_cap_witness :
    (ChatFrame.init.applyOps
        [ChatOp.addSystem "user joined".data 0]).chat_history.length
      ≤ max_history_size :=
  chat_history_cap.1 ChatFrame.init [ChatOp.addSystem "user joined".data 0]
    (by decide) (by intro h hm; simp at hm)

theorem send_message_eval_empty (f : ChatFrame)
    (callback : Option (List Char → Except (List Char) Unit))
    (h : pyStrip f.entry_text = []) :
    f.send_message callback =
      { frame := { f with
                     status_text := "Cannot send empty message".data,
                     status_is_error := true },
        callback_invoked := false } := by
  simp [ChatFrame.send_message, h]

theorem send_message_eval_long (f : ChatFrame)
    (callback : Option (List Char → Except (List Char) Unit))
    (h : pyStrip f.entry_text ≠ []) (hl : (pyStrip f.entry_text).length > 1000) :
    f.send_message callback =
      { frame := { f with
                     status_text := "Message too long (max 1000 characters)".data,
                     status_is_error := true },
        callback_invoked := false } := by
  simp [ChatFrame.send_message, h, hl]

theorem send_message_eval_none (f : ChatFrame)
    (h : pyStrip f.entry_text ≠ []) (hl : ¬ (pyStrip f.entry_text).length > 1000) :
    f.send_message none =
      { frame := { f with
                     status_text := "Not connected".data,
                     status_is_error := true },
        callback_invoked := false } := by
  simp [ChatFrame.send_message, h, hl]

theorem send_message_eval_ok (f : ChatFrame)
    (cb : List Char → Except (List Char) Unit)
    (h : pyStrip f.entry_text ≠ []) (hl : ¬ (pyStrip f.entry_text).length > 1000)
    (hok : cb (pyStrip f.entry_text) = .ok ()) :
    f.send_message (some cb) =
      { frame := { f with
                     entry_text := [],
                     status_text := "Message sent".data,
                     status_is_error := false },
        callback_invoked := true } := by
  simp [ChatFrame.send_message, h, hl, hok]

theorem send_message_eval_error (f : ChatFrame)
    (cb : List Char → Except (List Char) Unit) (e : List Char)
    (h : pyStrip f.entry_text ≠ []) (hl : ¬ (pyStrip f.entry_text).length > 1000)
    (herr : cb (pyStrip f.entry_text) = .error e) :
    f.send_message (some cb) =
      { frame := { f with
                     status_text := "Failed to send message: ".data ++ e,
                     status_is_error := true },
        callback_invoked := true } := by
  simp [ChatFrame.send_message, h, hl, herr]

/-- C9: `_send_message` invokes the registered callback exactly when a
callback is set, the stripped entry text is non-empty and it has at most
1000 characters; the entry is cleared only when the callback returns without
raising, and a raising callback is caught, leaves the entry unchanged and is
surfaced as an error status. -/
theorem chat_send_gates_callback (f : ChatFrame)
    (callback : Option (List Char → Except (List Char) Unit)) :
    ((f.send_message callback).callback_invoked = true ↔
      callback.isSome = true ∧ pyStrip f.entry_text ≠ [] ∧
        (pyStrip f.entry_text).length ≤ 1000)
    ∧ ((f.send_message callback).callback_invoked = false →
        (f.send_message callback).frame.entry_text = f.entry_text)
    ∧ (∀ cb, callback = some cb →
        pyStrip f.entry_text ≠ [] → (pyStrip f.entry_text).length ≤ 1000 →
        ∀ e, cb (pyStrip f.entry_text) = .error e →
          (f.send_message callback).frame.entry_text = f.entry_text ∧
          (f.send_message callback).frame.status_is_error = true ∧
          (f.send_message callback).frame.status_text
            = "Failed to send message: ".data ++ e)
    ∧ (∀ cb, callback = some cb →
        pyStrip f.entry_text ≠ [] → (pyStrip f.entry_text).length ≤ 1000 →
        cb (pyStrip f.entry_text) = .ok () →
          (f.send_message callback).frame.entry_text = []) := by
  by_cases hempty : pyStrip f.entry_text = []
  · rw [send_message_eval_empty f callback hempty]
    refine ⟨by simp [hempty], by intro _; rfl, ?_, ?_⟩
    · intro cb hcb hne; exact absurd hempty hne
    · intro cb hcb hne; exact absurd hempty hne
  · by_cases hlong : (pyStrip f.entry_text).length > 1000
    · rw [send_message_eval_long f callback hempty hlong]
      refine ⟨by simp; omega, by intro _; rfl, ?_, ?_⟩
      · intro cb hcb hne hle; omega
      · intro cb hcb hne hle; omega
    · cases callback with
      | none =>
        rw [send_message_eval_none f hempty hlong]
        refine ⟨by simp, by intro _; rfl, ?_, ?_⟩
        · intro cb hcb; exact absurd hcb (by simp)
        · intro cb hcb; exact absurd hcb (by simp)
      | some cb =>
        cases hres : cb (pyStrip f.entry_text) with
        | ok u =>
          rw [send_message_eval_ok f cb hempty hlong hres]
          refine ⟨by simp [hempty]; omega, by simp, ?_, ?_⟩
          · intro cb' hcb' hne hle e herr
            rw [Option.some.injEq] at hcb'
            rw [← hcb', hres] at herr
            exact absurd herr (by simp)
          · intro _ _ _ _ _; rfl
        | error e =>
          rw [send_message_eval_error f cb e hempty hlong hres]
          refine ⟨by simp [hempty]; omega, by simp, ?_, ?_⟩
          · intro cb' hcb' hne hle e' herr
            rw [Option.some.injEq] at hcb'
            rw [← hcb', hres] at herr
            simp only [Except.error.injEq] at herr
            subst herr
            exact ⟨rfl, rfl, rfl⟩
          · intro cb' hcb' hne hle hok
            rw [Option.some.injEq] at hcb'
            rw [← hcb', hres] at hok
            exact absurd hok (by simp)

/-- Witness for `chat_send_gates_callback` at a concrete frame and callback. -/
theorem chat_send_gates_callback_witness :
    ({ ChatFrame.init with entry_text := "hi".data }.send_message
        (some fun _ => Except.ok ())).callback_invoked = true :=
  (chat_send_gates_callback { ChatFrame.init with entry_text := "hi".data }
      (some fun _ => Except.ok ())).1.mpr
    ⟨rfl, by decide, by decide⟩

/-! ### `VideoFrame` slot assignment
`VideoFrame` keeps `self.video_slots`, a dict with the fixed keys 0..3
created by `_create_video_slots`; each value carries `participant_id` and
`active` (the widget handles are not modelled).  `_get_video_slot_stable`
iterates the dict in key order, so its loops are unrolled over 0..3. -/

structure VideoSlot where
  participant_id : Option (List Char)
  active : Bool
deriving DecidableEq, Inhabited

structure VideoSlots where
  slot0 : VideoSlot
  slot1 : VideoSlot
  slot2 : VideoSlot
  slot3 : VideoSlot
deriving DecidableEq, Inhabited

/-- The slots as `_create_video_slots` builds them: slot 0 belongs to
`'local'`, slots 1..3 are empty, nothing is active. -/
def initVideoSlots : VideoSlots :=
  { slot0 := { participant_id := some "local".data, active := false },
    slot1 := { participant_id := none, active := false },
    slot2 := { participant_id := none, active := false },
    slot3 := { participant_id := none, active := false } }

/-- Dict access `self.video_slots[i]` for the fixed keys 0..3. -/
def slotGet (s : VideoSlots) : Nat → VideoSlot
  | 0 => s.slot0
  | 1 => s.slot1
  | 2 => s.slot2
  | _ => s.slot3

/-- Slot mutation `self.video_slots[i][...] = ...` for the fixed keys 0..3;
an index outside the dict leaves the state unchanged. -/
def slotSet (s : VideoSlots) (i : Nat) (v : VideoSlot) : VideoSlots :=
  match i with
  | 0 => { s with slot0 := v }
  | 1 => { s with slot1 := v }
  | 2 => { s with slot2 := v }
  | 3 => { s with slot3 := v }
  | _ => s

/-- `not slot.get('active', False) or slot.get('participant_id') is None`:
the availability test of the preferred-order loop. -/
def slotAvailable (sl : VideoSlot) : Prop :=
  sl.active = false ∨ sl.participant_id = none

instance (sl : VideoSlot) : Decidable (slotAvailable sl) := by
  unfold slotAvailable; infer_instance

/-- `VideoFrame._get_video_slot_stable`, with the dict loops unrolled over
the fixed key set: first the existing-assignment scan over slots 0..3, then
for non-local clients the preferred order `[1, 3, 2]` of available slots,
then the fallback scan of inactive slots 1..3. -/
def getVideoSlotStable (s : VideoSlots) (client_id : List Char) : Option Nat :=
  if s.slot0.participant_id = some client_id then some 0
  else if s.slot1.participant_id = some client_id then some 1
  else if s.slot2.participant_id = some client_id then some 2
  else if s.slot3.participant_id = some client_id then some 3
  else if client_id ≠ "local".data ∧ slotAvailable s.slot1 then some 1
  else if client_id ≠ "local".data ∧ slotAvailable s.slot3 then some 3
  else if client_id ≠ "local".data ∧ slotAvailable s.slot2 then some 2
  else if s.slot1.active = false then some 1
  else if s.slot2.active = false then some 2
  else if s.slot3.active = false then some 3
  else none

/-- One value of the `participants` dict handed to `update_video_feeds`. -/
structure Participant where
  client_id : List Char
  username : List Char
  video_enabled : Bool
deriving DecidableEq, Inhabited

/-- The blank placeholder written into a remote slot by the clear pass of
`update_video_feeds`. -/
def clearedRemoteSlot : VideoSlot := { participant_id := none, active := false }

/-- The result of `self._widget_exists(slot['frame'])` for each remote slot:
whether the slot's frame widget still exists when `update_video_feeds`
runs.  (Slot 0 is skipped by the clear pass, so its liveness is not read.) -/
structure SlotFramesLive where
  slot1 : Bool
  slot2 : Bool
  slot3 : Bool
deriving DecidableEq, Inhabited

/-- The clear-all-remote-slots pass of `update_video_feeds`: slot 0 is
skipped, and a remote slot is reset to the blank placeholder only inside
`if self._widget_exists(slot['frame']):` — a slot whose frame widget is
gone keeps its stale `participant_id` / `active`. -/
def clearRemoteSlots (s : VideoSlots) (live : SlotFramesLive) : VideoSlots :=
  { s with
      slot1 := if live.slot1 = true then clearedRemoteSlot else s.slot1,
      slot2 := if live.slot2 = true then clearedRemoteSlot else s.slot2,
      slot3 := if live.slot3 = true then clearedRemoteSlot else s.slot3 }

/-- The assignment loop of `update_video_feeds`: walks the video-enabled
participants with a running `slot_index` (starting at 1) and the set of
already-assigned participant ids, skipping duplicates and stopping the
assignments once `slot_index` reaches the number of slots (4).  The writes
`slot['participant_id'] = participant_id` / `slot['active'] = True` sit
outside the widget-existence check, so they happen unconditionally. -/
def assignLoop : List Participant → Nat → List (List Char) → VideoSlots → VideoSlots
  | [], _, _, s => s
  | p :: rest, slot_index, assigned, s =>
    if p.client_id ∈ assigned ∨ slot_index ≥ 4 then
      assignLoop rest slot_index assigned s
    else
      assignLoop rest (slot_index + 1) (p.client_id :: assigned)
        (slotSet s slot_index { participant_id := some p.client_id, active := true })

/-- `VideoFrame.update_video_feeds` restricted to the slot state (the
`participant_videos` username bookkeeping and widget churn are not part of
the slot assignment): clear the remote slots whose frame widgets still
exist, then assign the video-enabled participants to slots 1.. in order. -/
def update_video_feeds (s : VideoSlots) (live : SlotFramesLive)
    (participants : List Participant) : VideoSlots :=
  assignLoop (participants.filter (fun p => p.video_enabled)) 1 []
    (clearRemoteSlots s live)

/-- The first occurrences of the client ids of a participant list, relative
to a set of already-seen ids (spec-side description of which participants
the assignment loop picks, in order). -/
def firstAssignments : List Participant → List (List Char) → List (List Char)
  | [], _ => []
  | p :: rest, seen =>
    if p.client_id ∈ seen then firstAssignments rest seen
    else p.client_id :: firstAssignments rest (p.client_id :: seen)

/-- The distinct video-enabled client ids, in first-occurrence order. -/
def specAssigned (participants : List Participant) : List (List Char) :=
  firstAssignments (participants.filter (fun p => p.video_enabled)) []

theorem slotGet_slotSet_ne (s : VideoSlots) (i j : Nat) (v : VideoSlot)
    (hj : j ≤ 3) (hne : i ≠ j) : slotGet (slotSet s i v) j = slotGet s j := by
  rcases i with _|_|_|_|m <;> interval_cases j <;> simp_all [slotSet, slotGet]

theorem slotGet_slotSet_self (s : VideoSlots) (i : Nat) (v : VideoSlot)
    (hi : i ≤ 3) : slotGet (slotSet s i v) i = v := by
  interval_cases i <;> simp [slotSet, slotGet]

theorem assignLoop_low : ∀ (ps : List Participant) (idx : Nat)
    (seen : List (List Char)) (s : VideoSlots) (j : Nat), j < idx → j ≤ 3 →
    slotGet (assignLoop ps idx seen s) j = slotGet s j := by
  intro ps
  induction ps with
  | nil => intro idx seen s j _ _; rfl
  | cons p rest ih =>
    intro idx seen s j hj hj3
    unfold assignLoop
    by_cases hskip : p.client_id ∈ seen ∨ idx ≥ 4
    · simp only [hskip, if_true]
      exact ih idx seen s j hj hj3
    · simp only [hskip, if_false]
      rw [ih (idx + 1) _ _ j (by omega) hj3]
      exact slotGet_slotSet_ne s idx j _ hj3 (by omega)

theorem assignLoop_get : ∀ (ps : List Participant) (idx : Nat)
    (seen : List (List Char)) (s : VideoSlots) (j : Nat),
    1 ≤ idx → idx ≤ j → j ≤ 3 →
    slotGet (assignLoop ps idx seen s) j =
      (match (firstAssignments ps seen)[j - idx]? with
       | some cid => { participant_id := some cid, active := true }
       | none => slotGet s j) := by
  intro ps
  induction ps with
  | nil =>
    intro idx seen s j _ _ _
    simp [assignLoop, firstAssignments]
  | cons p rest ih =>
    intro idx seen s j h1 h2 h3
    unfold assignLoop firstAssignments
    by_cases hmem : p.client_id ∈ seen
    · have hor : p.client_id ∈ seen ∨ idx ≥ 4 := Or.inl hmem
      rw [if_pos hor, if_pos hmem]
      exact ih idx seen s j h1 h2 h3
    · have hidx4 : ¬ idx ≥ 4 := by omega
      have hcond : ¬ (p.client_id ∈ seen ∨ idx ≥ 4) := by
        intro hc; rcases hc with hc | hc
        · exact hmem hc
        · exact hidx4 hc
      rw [if_neg hcond, if_neg hmem]
      by_cases hj : j = idx
      · subst hj
        rw [assignLoop_low rest (j + 1) _ _ j (by omega) h3]
        rw [slotGet_slotSet_self s j _ h3]
        simp
      · have hlt : idx < j := lt_of_le_of_ne h2 (Ne.symm hj)
        rw [ih (idx + 1) _ _ j (by omega) (by omega) h3]
        have hstep : (p.client_id :: firstAssignments rest (p.client_id :: seen))[j - idx]?
            = (firstAssignments rest (p.client_id :: seen))[j - (idx + 1)]? := by
          rw [show j - idx = (j - (idx + 1)) + 1 by omega]
          simp
        rw [hstep]
        cases hL : (firstAssignments rest (p.client_id :: seen))[j - (idx + 1)]? with
        | some cid => simp
        | none => simp [slotGet_slotSet_ne s idx j _ h3 (by omega)]

theorem firstAssignments_nodup : ∀ (ps : List Participant) (seen : List (List Char)),
    (firstAssignments ps seen).Nodup ∧
      ∀ c ∈ firstAssignments ps seen, c ∉ seen := by
  intro ps
  induction ps with
  | nil => intro seen; simp [firstAssignments]
  | cons p rest ih =>
    intro seen
    unfold firstAssignments
    by_cases hmem : p.client_id ∈ seen
    · simp only [hmem, if_true]
      exact ih seen
    · simp only [hmem, if_false]
      obtain ⟨hnd, hout⟩ := ih (p.client_id :: seen)
      constructor
      · refine List.nodup_cons.mpr ⟨?_, hnd⟩
        intro hc
        exact hout _ hc (List.mem_cons_self _ _)
      · intro c hc
        rcases List.mem_cons.mp hc with rfl | hc'
        · exact hmem
        · intro hcs
          exact hout _ hc' (List.mem_cons_of_mem _ hcs)

theorem updateFeeds_pid (s : VideoSlots) (live : SlotFramesLive)
    (participants : List Participant)
    (hl1 : live.slot1 = true) (hl2 : live.slot2 = true) (hl3 : live.slot3 = true)
    (j : Nat) (h1 : 1 ≤ j) (h3 : j ≤ 3) :
    (slotGet (update_video_feeds s live participants) j).participant_id
      = (specAssigned participants)[j - 1]? := by
  unfold update_video_feeds specAssigned
  rw [assignLoop_get _ 1 [] _ j (le_refl 1) h1 h3]
  cases hL : (firstAssignments (participants.filter (fun p => p.video_enabled)) [])[j - 1]? with
  | some cid => simp [hL]
  | none =>
    simp only [hL]
    interval_cases j <;>
      simp [clearRemoteSlots, clearedRemoteSlot, slotGet, hl1, hl2, hl3]

theorem updateFeeds_active (s : VideoSlots) (live : SlotFramesLive)
    (participants : List Participant)
    (hl1 : live.slot1 = true) (hl2 : live.slot2 = true) (hl3 : live.slot3 = true)
    (j : Nat) (h1 : 1 ≤ j) (h3 : j ≤ 3) :
    ((slotGet (update_video_feeds s live participants) j).active = true ↔
      j ≤ (specAssigned participants).length) := by
  unfold update_video_feeds specAssigned
  rw [assignLoop_get _ 1 [] _ j (le_refl 1) h1 h3]
  cases hL : (firstAssignments (participants.filter (fun p => p.video_enabled)) [])[j - 1]? with
  | some cid =>
    simp only [hL]
    have hlt : j - 1 < (firstAssignments (participants.filter (fun p => p.video_enabled)) []).length :=
      (List.getElem?_eq_some_iff.mp hL).1
    constructor
    · intro _; omega
    · intro _; trivial
  | none =>
    simp only [hL]
    have hge : ¬ (j - 1 < (firstAssignments (participants.filter (fun p => p.video_enabled)) []).length) := by
      intro hlt
      rw [List.getElem?_eq_getElem hlt] at hL
      exact absurd hL (by simp)
    have hcl : (slotGet (clearRemoteSlots s live) j).active = false := by
      interval_cases j <;>
        simp [clearRemoteSlots, clearedRemoteSlot, slotGet, hl1, hl2, hl3]
    constructor
    · intro hact
      rw [hcl] at hact
      exact absurd hact Bool.false_ne_true
    · intro hj
      omega

set_option maxHeartbeats 1000000 in
/-- C2: for a remote client id, `_get_video_slot_stable` returns the slot
already holding that client when one exists; otherwise the first slot in the
preference order 1, 3, 2 that is inactive or has no participant; it never
returns slot 0; and it returns `None` exactly when slots 1, 2 and 3 are all
active and occupied by other clients. -/
theorem video_slot_assignment_order (s : VideoSlots) (cid : List Char)
    (hcid : cid ≠ "local".data)
    (h0 : s.slot0.participant_id = some "local".data)
    (huniq : ∀ i, i ≤ 3 → ∀ j, j ≤ 3 →
        (slotGet s i).participant_id = some cid →
        (slotGet s j).participant_id = some cid → i = j) :
    (∀ j, j ≤ 3 → (slotGet s j).participant_id = some cid →
        getVideoSlotStable s cid = some j)
    ∧ ((∀ j, j ≤ 3 → (slotGet s j).participant_id ≠ some cid) →
        getVideoSlotStable s cid =
          (if slotAvailable s.slot1 then some 1
           else if slotAvailable s.slot3 then some 3
           else if slotAvailable s.slot2 then some 2
           else none))
    ∧ getVideoSlotStable s cid ≠ some 0
    ∧ (getVideoSlotStable s cid = none ↔
        ∀ j, 1 ≤ j → j ≤ 3 → (slotGet s j).active = true ∧
          (slotGet s j).participant_id ≠ none ∧
          (slotGet s j).participant_id ≠ some cid) := by
  have h0ne : ¬ s.slot0.participant_id = some cid := by
    rw [h0]
    intro heq
    exact hcid (Option.some.inj heq).symm
  refine ⟨?_, ?_, ?_, ?_⟩
  · intro j hj hpid
    interval_cases j
    · exact absurd hpid h0ne
    · have hp : s.slot1.participant_id = some cid := hpid
      unfold getVideoSlotStable
      rw [if_neg h0ne, if_pos hp]
    · have hp : s.slot2.participant_id = some cid := hpid
      have h1ne : ¬ s.slot1.participant_id = some cid := by
        intro hh
        have := huniq 1 (by omega) 2 (by omega) hh hpid
        omega
      unfold getVideoSlotStable
      rw [if_neg h0ne, if_neg h1ne, if_pos hp]
    · have hp : s.slot3.participant_id = some cid := hpid
      have h1ne : ¬ s.slot1.participant_id = some cid := by
        intro hh
        have := huniq 1 (by omega) 3 (by omega) hh hpid
        omega
      have h2ne : ¬ s.slot2.participant_id = some cid := by
        intro hh
        have := huniq 2 (by omega) 3 (by omega) hh hpid
        omega
      unfold getVideoSlotStable
      rw [if_neg h0ne, if_neg h1ne, if_neg h2ne, if_pos hp]
  · intro hnone
    have h1ne : ¬ s.slot1.participant_id = some cid := hnone 1 (by omega)
    have h2ne : ¬ s.slot2.participant_id = some cid := hnone 2 (by omega)
    have h3ne : ¬ s.slot3.participant_id = some cid := hnone 3 (by omega)
    unfold getVideoSlotStable
    rw [if_neg h0ne, if_neg h1ne, if_neg h2ne, if_neg h3ne]
    by_cases ha1 : slotAvailable s.slot1
    · rw [if_pos ⟨hcid, ha1⟩, if_pos ha1]
    · have hna1 : ¬ (cid ≠ "local".data ∧ slotAvailable s.slot1) := fun h => ha1 h.2
      rw [if_neg hna1, if_neg ha1]
      by_cases ha3 : slotAvailable s.slot3
      · rw [if_pos ⟨hcid, ha3⟩, if_pos ha3]
      · have hna3 : ¬ (cid ≠ "local".data ∧ slotAvailable s.slot3) := fun h => ha3 h.2
        rw [if_neg hna3, if_neg ha3]
        by_cases ha2 : slotAvailable s.slot2
        · rw [if_pos ⟨hcid, ha2⟩, if_pos ha2]
        · have hna2 : ¬ (cid ≠ "local".data ∧ slotAvailable s.slot2) := fun h => ha2 h.2
          rw [if_neg hna2, if_neg ha2]
          have hact1 : ¬ s.slot1.active = false := fun hf => ha1 (Or.inl hf)
          have hact2 : ¬ s.slot2.active = false := fun hf => ha2 (Or.inl hf)
          have hact3 : ¬ s.slot3.active = false := fun hf => ha3 (Or.inl hf)
          rw [if_neg hact1, if_neg hact2, if_neg hact3]
  · unfold getVideoSlotStable
    rw [if_neg h0ne]
    split_ifs <;> simp
  · constructor
    · intro hres
      unfold getVideoSlotStable at hres
      rw [if_neg h0ne] at hres
      split_ifs at hres with hc1 hc2 hc3 hc4 hc5 hc6 hc7 hc8 hc9 <;>
        try simp at hres
      intro j hj1 hj3
      have hna1 : ¬ slotAvailable s.slot1 := fun ha => hc4 ⟨hcid, ha⟩
      have hna3 : ¬ slotAvailable s.slot3 := fun ha => hc5 ⟨hcid, ha⟩
      have hna2 : ¬ slotAvailable s.slot2 := fun ha => hc6 ⟨hcid, ha⟩
      interval_cases j
      · refine ⟨?_, fun hn => hna1 (Or.inr hn), hc1⟩
        show s.slot1.active = true
        cases hb : s.slot1.active
        · exact absurd hb hc7
        · rfl
      · refine ⟨?_, fun hn => hna2 (Or.inr hn), hc2⟩
        show s.slot2.active = true
        cases hb : s.slot2.active
        · exact absurd hb hc8
        · rfl
      · refine ⟨?_, fun hn => hna3 (Or.inr hn), hc3⟩
        show s.slot3.active = true
        cases hb : s.slot3.active
        · exact absurd hb hc9
        · rfl
    · intro hocc
      obtain ⟨h1a, h1n, h1c⟩ := hocc 1 (by omega) (by omega)
      obtain ⟨h2a, h2n, h2c⟩ := hocc 2 (by omega) (by omega)
      obtain ⟨h3a, h3n, h3c⟩ := hocc 3 (by omega) (by omega)
      have h1c' : ¬ s.slot1.participant_id = some cid := h1c
      have h2c' : ¬ s.slot2.participant_id = some cid := h2c
      have h3c' : ¬ s.slot3.participant_id = some cid := h3c
      have hna1 : ¬ slotAvailable s.slot1 := by
        intro ha
        rcases ha with ha | ha
        · rw [show s.slot1.active = true from h1a] at ha
          exact Bool.noConfusion ha
        · exact h1n ha
      have hna2 : ¬ slotAvailable s.slot2 := by
        intro ha
        rcases ha with ha | ha
        · rw [show s.slot2.active = true from h2a] at ha
          exact Bool.noConfusion ha
        · exact h2n ha
      have hna3 : ¬ slotAvailable s.slot3 := by
        intro ha
        rcases ha with ha | ha
        · rw [show s.slot3.active = true from h3a] at ha
          exact Bool.noConfusion ha
        · exact h3n ha
      have hact1 : ¬ s.slot1.active = false := by
        simp [show s.slot1.active = true from h1a]
      have hact2 : ¬ s.slot2.active = false := by
        simp [show s.slot2.active = true from h2a]
      have hact3 : ¬ s.slot3.active = false := by
        simp [show s.slot3.active = true from h3a]
      unfold getVideoSlotStable
      rw [if_neg h0ne, if_neg h1c', if_neg h2c', if_neg h3c',
        if_neg (fun h : _ ∧ _ => hna1 h.2), if_neg (fun h : _ ∧ _ => hna3 h.2),
        if_neg (fun h : _ ∧ _ => hna2 h.2),
        if_neg hact1, if_neg hact2, if_neg hact3]

/-- Witness for `video_slot_assignment_order` at the freshly created slots
and a concrete remote client id. -/
theorem video_slot_assignment_order_witness :
    getVideoSlotStable initVideoSlots "c1".data ≠ some 0 :=
  (video_slot_assignment_order initVideoSlots "c1".data (by decide) (by decide)
    (by
      intro i hi j hj hpi hpj
      interval_cases i <;> interval_cases j <;> revert hpi hpj <;>
        simp [slotGet, initVideoSlots])).2.2.1

/-- C3 (counterexample): when a remote slot's frame widget is gone, the
clear pass of `update_video_feeds` skips it while the assignment writes are
unconditional — starting from a state whose dead slot 2 still holds client
`"x"`, updating with `"x"` video-enabled leaves `"x"` in slot 1 and slot 2
at once, refuting the claim that each participant id is assigned to at most
one slot. -/
theorem update_video_feeds_duplicate_counterexample :
    ((update_video_feeds
        { slot0 := { participant_id := some "local".data, active := false },
          slot1 := { participant_id := none, active := false },
          slot2 := { participant_id := some "x".data, active := true },
          slot3 := { participant_id := none, active := false } }
        { slot1 := true, slot2 := false, slot3 := true }
        [{ client_id := "x".data, username := "ux".data, video_enabled := true }]
      ).slot1.participant_id = some "x".data)
    ∧ ((update_video_feeds
        { slot0 := { participant_id := some "local".data, active := false },
          slot1 := { participant_id := none, active := false },
          slot2 := { participant_id := some "x".data, active := true },
          slot3 := { participant_id := none, active := false } }
        { slot1 := true, slot2 := false, slot3 := true }
        [{ client_id := "x".data, username := "ux".data, video_enabled := true }]
      ).slot2.participant_id = some "x".data) := by
  decide

/-- C3 (amended): `update_video_feeds` never touches slot 0 (which keeps the
`'local'` participant id it was created with) whatever the widget state;
and provided the frame widgets of slots 1..3 all still exist, slots 1..3
receive, in increasing slot order, exactly the first occurrences of the
video-enabled participants' client ids, no client id ends up in two of the
remote slots, and slot `j` is active exactly when at least `j` video-enabled
participants exist, so at most 3 remote participants are displayed.  (With a
dead slot widget the guarded clear pass leaves a stale assignment that the
unconditional writes can duplicate.) -/
theorem update_video_feeds_slots (s : VideoSlots) (live : SlotFramesLive)
    (participants : List Participant) :
    (update_video_feeds s live participants).slot0 = s.slot0
    ∧ (s.slot0.participant_id = some "local".data →
        (update_video_feeds s live participants).slot0.participant_id
          = some "local".data)
    ∧ (live.slot1 = true → live.slot2 = true → live.slot3 = true →
        ([(update_video_feeds s live participants).slot1.participant_id,
          (update_video_feeds s live participants).slot2.participant_id,
          (update_video_feeds s live participants).slot3.participant_id]
          = [(specAssigned participants)[0]?, (specAssigned participants)[1]?,
             (specAssigned participants)[2]?])
        ∧ (∀ i, 1 ≤ i → i ≤ 3 → ∀ j, 1 ≤ j → j ≤ 3 → i ≠ j → ∀ c,
            (slotGet (update_video_feeds s live participants) i).participant_id
              = some c →
            (slotGet (update_video_feeds s live participants) j).participant_id
              ≠ some c)
        ∧ (∀ j, 1 ≤ j → j ≤ 3 →
            ((slotGet (update_video_feeds s live participants) j).active = true ↔
              j ≤ (specAssigned participants).length))) := by
  have hslot0 : (update_video_feeds s live participants).slot0 = s.slot0 := by
    have h := assignLoop_low (participants.filter (fun p => p.video_enabled)) 1 []
      (clearRemoteSlots s live) 0 (by omega) (by omega)
    exact h
  refine ⟨hslot0, ?_, ?_⟩
  · intro hl
    rw [hslot0]
    exact hl
  · intro hl1 hl2 hl3
    refine ⟨?_, ?_, ?_⟩
    · have e1 := updateFeeds_pid s live participants hl1 hl2 hl3 1 (by omega) (by omega)
      have e2 := updateFeeds_pid s live participants hl1 hl2 hl3 2 (by omega) (by omega)
      have e3 := updateFeeds_pid s live participants hl1 hl2 hl3 3 (by omega) (by omega)
      simp only [List.cons.injEq, and_true]
      exact ⟨e1, e2, e3⟩
    · intro i hi1 hi3 j hj1 hj3 hij c hci hcj
      rw [updateFeeds_pid s live participants hl1 hl2 hl3 i hi1 hi3] at hci
      rw [updateFeeds_pid s live participants hl1 hl2 hl3 j hj1 hj3] at hcj
      have hnd : (specAssigned participants).Nodup :=
        (firstAssignments_nodup (participants.filter (fun p => p.video_enabled)) []).1
      have hlen : i - 1 < (specAssigned participants).length :=
        (List.getElem?_eq_some_iff.mp hci).1
      have heq : i - 1 = j - 1 :=
        List.getElem?_inj hlen hnd (hci.trans hcj.symm)
      omega
    · intro j hj1 hj3
      exact updateFeeds_active s live participants hl1 hl2 hl3 j hj1 hj3

/-- Witness for `update_video_feeds_slots` at the fresh slots, all frame
widgets live, and one video-enabled participant. -/
theorem update_video_feeds_slots_witness :
    (update_video_feeds initVideoSlots
        { slot1 := true, slot2 := true, slot3 := true }
        [{ client_id := "a".data, username := "u".data, video_enabled := true }]
      ).slot0.participant_id = some "local".data :=
  (update_video_feeds_slots initVideoSlots
      { slot1 := true, slot2 := true, slot3 := true }
      [{ client_id := "a".data, username := "u".data, video_enabled := true }]).2.1
    (by decide)

/-! ### Tk widgets and the defensive update helpers
`_widget_exists` (`VideoFrame`) and `_safe_button_update` /
`_safe_label_update` (`ScreenShareFrame`) guard every widget access.  A
widget is modelled with a `destroyed` flag (`winfo_exists()` reports 0) and
a `tcl_broken` flag (the Tcl interpreter is gone, so widget operations raise
`TclError`); raised exceptions are modelled with `Except`. -/

structure TkWidget where
  destroyed : Bool
  tcl_broken : Bool
  state : List Char
  text : List Char
  foreground : List Char
deriving DecidableEq, Inhabited

/-- `widget.winfo_exists()`: raises `TclError` when the interpreter is gone,
otherwise reports whether the widget still exists. -/
def winfo_exists (w : TkWidget) : Except (List Char) Bool :=
  if w.tcl_broken then .error "TclError".data else .ok (!w.destroyed)

/-- The keyword arguments of a `widget.config(**kwargs)` call. -/
structure WidgetConfig where
  state : Option (List Char)
  text : Option (List Char)
  foreground : Option (List Char)
deriving DecidableEq, Inhabited

def applyConfig (w : TkWidget) (c : WidgetConfig) : TkWidget :=
  { w with
      state := c.state.getD w.state,
      text := c.text.getD w.text,
      foreground := c.foreground.getD w.foreground }

/-- `widget.config(**kwargs)`: raises `TclError` on a destroyed widget or a
broken interpreter, otherwise applies the requested option values. -/
def tk_config (w : TkWidget) (c : WidgetConfig) : Except (List Char) TkWidget :=
  if w.tcl_broken ∨ w.destroyed then .error "TclError".data
  else .ok (applyConfig w c)

/-- The body of `VideoFrame._widget_exists` inside its `try`: `None` yields
`False` directly, otherwise `winfo_exists()` is consulted (and may raise). -/
def widget_exists_run (w : Option TkWidget) : Except (List Char) Bool :=
  match w with
  | none => .ok false
  | some wgt => winfo_exists wgt

/-- `VideoFrame._widget_exists`: the `except` clauses catch every exception
and return `False`. -/
def widget_exists (w : Option TkWidget) : Bool :=
  match widget_exists_run w with
  | .ok b => b
  | .error _ => false

/-- The body of `ScreenShareFrame._safe_button_update` inside its `try`:
`if button and button.winfo_exists(): button.config(**kwargs)`, with
exception propagation made explicit. -/
def safe_button_update_run (b : Option TkWidget) (c : WidgetConfig) :
    Except (List Char) (Option TkWidget) :=
  match b with
  | none => .ok none
  | some w =>
    match winfo_exists w with
    | .error e => .error e
    | .ok false => .ok (some w)
    | .ok true =>
      match tk_config w c with
      | .error e => .error e
      | .ok w2 => .ok (some w2)

/-- `ScreenShareFrame._safe_button_update`: `tk.TclError` and any other
exception are caught and logged, leaving the widget as it was. -/
def safe_button_update (b : Option TkWidget) (c : WidgetConfig) : Option TkWidget :=
  match safe_button_update_run b c with
  | .ok r => r
  | .error _ => b

/-- The body of `ScreenShareFrame._safe_label_update` inside its `try`
(textually identical to the button variant in the source). -/
def safe_label_update_run (l : Option TkWidget) (c : WidgetConfig) :
    Except (List Char) (Option TkWidget) :=
  match l with
  | none => .ok none
  | some w =>
    match winfo_exists w with
    | .error e => .error e
    | .ok false => .ok (some w)
    | .ok true =>
      match tk_config w c with
      | .error e => .error e
      | .ok w2 => .ok (some w2)

/-- `ScreenShareFrame._safe_label_update`: every exception is caught. -/
def safe_label_update (l : Option TkWidget) (c : WidgetConfig) : Option TkWidget :=
  match safe_label_update_run l c with
  | .ok r => r
  | .error _ => l

theorem safe_button_update_alive (w : TkWidget) (c : WidgetConfig)
    (h1 : w.destroyed = false) (h2 : w.tcl_broken = false) :
    safe_button_update (some w) c = some (applyConfig w c) := by
  simp [safe_button_update, safe_button_update_run, winfo_exists, tk_config, h1, h2]

theorem safe_label_update_alive (w : TkWidget) (c : WidgetConfig)
    (h1 : w.destroyed = false) (h2 : w.tcl_broken = false) :
    safe_label_update (some w) c = some (applyConfig w c) := by
  simp [safe_label_update, safe_label_update_run, winfo_exists, tk_config, h1, h2]

/-- C7: `_widget_exists` always returns a boolean — `False` for a missing,
destroyed or interpreter-broken widget, `True` exactly for a live widget —
and the safe update helpers never propagate an exception (a raising body is
caught and the widget reference is handed back untouched), leaving the
widget unchanged whenever it does not exist. -/
theorem defensive_widget_checks :
    (widget_exists none = false)
    ∧ (∀ w : TkWidget, w.destroyed = true → widget_exists (some w) = false)
    ∧ (∀ w : TkWidget, w.tcl_broken = true → widget_exists (some w) = false)
    ∧ (∀ w : TkWidget, widget_exists (some w) = true ↔
        (w.destroyed = false ∧ w.tcl_broken = false))
    ∧ (∀ (b : Option TkWidget) (c : WidgetConfig),
        widget_exists b = false → safe_button_update b c = b)
    ∧ (∀ (l : Option TkWidget) (c : WidgetConfig),
        widget_exists l = false → safe_label_update l c = l)
    ∧ (∀ (b : Option TkWidget) (c : WidgetConfig) (e : List Char),
        safe_button_update_run b c = .error e → safe_button_update b c = b)
    ∧ (∀ (l : Option TkWidget) (c : WidgetConfig) (e : List Char),
        safe_label_update_run l c = .error e → safe_label_update l c = l) := by
  refine ⟨rfl, ?_, ?_, ?_, ?_, ?_, ?_, ?_⟩
  · intro w hw
    by_cases hb : w.tcl_broken
    · simp [widget_exists, widget_exists_run, winfo_exists, hb]
    · simp [widget_exists, widget_exists_run, winfo_exists, hb, hw]
  · intro w hw
    simp [widget_exists, widget_exists_run, winfo_exists, hw]
  · intro w
    constructor
    · intro h
      by_cases hb : w.tcl_broken
      · simp [widget_exists, widget_exists_run, winfo_exists, hb] at h
      · by_cases hd : w.destroyed
        · simp [widget_exists, widget_exists_run, winfo_exists, hb, hd] at h
        · exact ⟨by simpa using hd, by simpa using hb⟩
    · intro ⟨hd, hb⟩
      simp [widget_exists, widget_exists_run, winfo_exists, hb, hd]
  · intro b c hfalse
    cases b with
    | none => rfl
    | some w =>
      by_cases hb : w.tcl_broken
      · simp [safe_button_update, safe_button_update_run, winfo_exists, hb]
      · by_cases hd : w.destroyed
        · simp [safe_button_update, safe_button_update_run, winfo_exists, hb, hd]
        · simp [widget_exists, widget_exists_run, winfo_exists, hb, hd] at hfalse
  · intro l c hfalse
    cases l with
    | none => rfl
    | some w =>
      by_cases hb : w.tcl_broken
      · simp [safe_label_update, safe_label_update_run, winfo_exists, hb]
      · by_cases hd : w.destroyed
        · simp [safe_label_update, safe_label_update_run, winfo_exists, hb, hd]
        · simp [widget_exists, widget_exists_run, winfo_exists, hb, hd] at hfalse
  · intro b c e herr
    simp [safe_button_update, herr]
  · intro l c e herr
    simp [safe_label_update, herr]

/-- Witness for `defensive_widget_checks` at a concrete destroyed widget. -/
theorem defensive_widget_checks_witness :
    widget_exists (some { destroyed := true,
                          tcl_broken := false,
                          state := [],
                          text := [],
                          foreground := [] }) = false :=
  defensive_widget_checks.2.1 _ rfl

/-! ### `ScreenShareFrame` — presenter display and presenter-request timeout -/

def cfgStateText (st tx : List Char) : WidgetConfig :=
  { state := some st, text := some tx, foreground := none }

def cfgText (tx : List Char) : WidgetConfig :=
  { state := none, text := some tx, foreground := none }

def cfgTextFg (tx fg : List Char) : WidgetConfig :=
  { state := none, text := some tx, foreground := some fg }

/-- The deferred calls `self.after(ms, handler)` schedules in the embedded
methods. -/
inductive TimerEvent where
  | resetPresenterRequestTimeout
  | resetStatusToReady
deriving DecidableEq

/-- The `ScreenShareFrame` state the embedded methods touch. -/
structure ScreenShareFrame where
  is_sharing : Bool
  current_presenter_name : Option (List Char)
  share_button : Option TkWidget
  sharing_status : Option TkWidget
  screen_label : Option TkWidget
  canvas_visible : Bool
deriving DecidableEq

/-- Python truthiness of the optional `presenter_name` argument
(`if presenter_name:` — `None` and the empty string are falsy). -/
def nameTruthy : Option (List Char) → Bool
  | some s => !s.isEmpty
  | none => false

/-- `ScreenShareFrame.update_presenter`: records the presenter name; while
not sharing, a truthy name disables the share button and shows
`"<name> is sharing"` and the shared screen canvas, a falsy name re-enables
the button with `"Start Screen Share"`, status `"Ready to share"` and hides
the canvas; finally, still while not sharing, the screen label shows either
`"Waiting for <name> to share"` or `"No screen sharing active"`. -/
def update_presenter (f : ScreenShareFrame) (presenter_name : Option (List Char)) :
    ScreenShareFrame :=
  let f := { f with current_presenter_name := presenter_name }
  let name := presenter_name.getD []
  let f :=
    if nameTruthy presenter_name = true ∧ f.is_sharing = false then
      { f with
          share_button := safe_button_update f.share_button
            (cfgStateText "disabled".data (name ++ " is sharing".data)),
          sharing_status := safe_label_update f.sharing_status
            (cfgTextFg (name ++ " is sharing".data) "blue".data),
          canvas_visible := true }
    else if nameTruthy presenter_name = false ∧ f.is_sharing = false then
      { f with
          share_button := safe_button_update f.share_button
            (cfgStateText "normal".data "Start Screen Share".data),
          sharing_status := safe_label_update f.sharing_status
            (cfgTextFg "Ready to share".data "black".data),
          canvas_visible := false }
    else f
  if f.is_sharing = false then
    if nameTruthy presenter_name = true then
      let lbl := safe_label_update f.screen_label
        (cfgText ("Waiting for ".data ++ name ++ " to share".data))
      { f with screen_label := lbl }
    else
      let lbl := safe_label_update f.screen_label
        (cfgText "No screen sharing active".data)
      { f with screen_label := lbl }
  else f

/-- Result of an event handler: the new frame state, the values passed to
`screen_share_callback`, and the `after` timers scheduled. -/
structure HandlerResult where
  frame : ScreenShareFrame
  callback_events : List Bool
  timers : List (Nat × TimerEvent)
deriving DecidableEq

/-- `ScreenShareFrame._toggle_screen_share`: reads the button text (an early
return when the button is gone or `cget` raises), then dispatches on it:
`"Request Presenter Role"` enters the loading state, fires the callback with
`True` and schedules the 10000 ms `_reset_presenter_request_timeout`;
`"Start..."` enters the starting state and fires `True`; `"Stop..."` fires
`False`; anything else only logs. -/
def toggle_screen_share (f : ScreenShareFrame) (callback_set : Bool) :
    HandlerResult :=
  match f.share_button with
  | none => { frame := f, callback_events := [], timers := [] }
  | some b =>
    if b.tcl_broken = true ∨ b.destroyed = true then
      { frame := f, callback_events := [], timers := [] }
    else
      let button_text := b.text
      if button_text = "Request Presenter Role".data then
        let f2 := { f with
          share_button := safe_button_update f.share_button
            (cfgStateText "disabled".data "Requesting...".data),
          sharing_status := safe_label_update f.sharing_status
            (cfgTextFg "Requesting presenter role...".data "orange".data) }
        if callback_set then
          { frame := f2, callback_events := [true],
            timers := [(10000, TimerEvent.resetPresenterRequestTimeout)] }
        else
          { frame := f2, callback_events := [], timers := [] }
      else if "Start".data.isPrefixOf button_text then
        let f2 := { f with
          share_button := safe_button_update f.share_button
            (cfgStateText "disabled".data "Starting...".data),
          sharing_status := safe_label_update f.sharing_status
            (cfgTextFg "Starting screen share...".data "orange".data) }
        if callback_set then
          { frame := f2, callback_events := [true], timers := [] }
        else
          { frame := f2, callback_events := [], timers := [] }
      else if "Stop".data.isPrefixOf button_text then
        if callback_set then
          { frame := f, callback_events := [false], timers := [] }
        else
          { frame := f, callback_events := [], timers := [] }
      else
        { frame := f, callback_events := [], timers := [] }

/-- `ScreenShareFrame._reset_presenter_request_timeout`: reads the button
text with an unguarded `cget` (raising on a dead widget); if the text is
still `"Requesting..."` it restores the button to `'normal'` /
`"Request Presenter Role"`, shows `"Request timed out - try again"` and
schedules the 3000 ms status reset; otherwise it does nothing. -/
def reset_presenter_request_timeout (f : ScreenShareFrame) :
    Except (List Char) HandlerResult :=
  match f.share_button with
  | none => .error "AttributeError".data
  | some b =>
    if b.tcl_broken = true ∨ b.destroyed = true then .error "TclError".data
    else if b.text = "Requesting...".data then
      .ok { frame := { f with
              share_button := safe_button_update f.share_button
                (cfgStateText "normal".data "Request Presenter Role".data),
              sharing_status := safe_label_update f.sharing_status
                (cfgTextFg "Request timed out - try again".data "red".data) },
            callback_events := [],
            timers := [(3000, TimerEvent.resetStatusToReady)] }
    else .ok { frame := f, callback_events := [], timers := [] }

/-- C4: while not sharing, `update_presenter` with a non-empty name disables
the share button with text `"<name> is sharing"` and sets the sharing status
to `"<name> is sharing"`; with `None` it re-enables the button with
`"Start Screen Share"`, status `"Ready to share"` and screen label
`"No screen sharing active"`. -/
theorem update_presenter_display (f : ScreenShareFrame) (b s l : TkWidget)
    (hshare : f.is_sharing = false)
    (hb : f.share_button = some b) (hb1 : b.destroyed = false)
    (hb2 : b.tcl_broken = false)
    (hs : f.sharing_status = some s) (hs1 : s.destroyed = false)
    (hs2 : s.tcl_broken = false)
    (hl : f.screen_label = some l) (hl1 : l.destroyed = false)
    (hl2 : l.tcl_broken = false) :
    (∀ name : List Char, name ≠ [] →
      ∃ b2 s2, (update_presenter f (some name)).share_button = some b2
        ∧ b2.state = "disabled".data ∧ b2.text = name ++ " is sharing".data
        ∧ (update_presenter f (some name)).sharing_status = some s2
        ∧ s2.text = name ++ " is sharing".data)
    ∧ (∃ b2 s2 l2, (update_presenter f none).share_button = some b2
        ∧ b2.state = "normal".data ∧ b2.text = "Start Screen Share".data
        ∧ (update_presenter f none).sharing_status = some s2
        ∧ s2.text = "Ready to share".data
        ∧ (update_presenter f none).screen_label = some l2
        ∧ l2.text = "No screen sharing active".data) := by
  constructor
  · intro name hname
    have ht : nameTruthy (some name) = true := by
      simp [nameTruthy]
      exact hname
    refine ⟨applyConfig b (cfgStateText "disabled".data (name ++ " is sharing".data)),
            applyConfig s (cfgTextFg (name ++ " is sharing".data) "blue".data),
            ?_, ?_, ?_, ?_, ?_⟩ <;>
      simp [update_presenter, ht, hshare, hb, hs, hl,
        safe_button_update_alive, safe_label_update_alive,
        hb1, hb2, hs1, hs2, hl1, hl2, applyConfig, cfgStateText, cfgTextFg, cfgText]
  · have ht : nameTruthy none = false := rfl
    refine ⟨applyConfig b (cfgStateText "normal".data "Start Screen Share".data),
            applyConfig s (cfgTextFg "Ready to share".data "black".data),
            applyConfig l (cfgText "No screen sharing active".data),
            ?_, ?_, ?_, ?_, ?_, ?_, ?_⟩ <;>
      simp [update_presenter, ht, hshare, hb, hs, hl,
        safe_button_update_alive, safe_label_update_alive,
        hb1, hb2, hs1, hs2, hl1, hl2, applyConfig, cfgStateText, cfgTextFg, cfgText]

/-- Witness for `update_presenter_display` at a concrete frame. -/
theorem update_presenter_display_witness :
    ∃ b2 s2,
      (update_presenter
        { is_sharing := false,
          current_presenter_name := none,
          share_button := some { destroyed := false,
                                 tcl_broken := false,
                                 state := "normal".data,
                                 text := "Start Screen Share".data,
                                 foreground := [] },
          sharing_status := some { destroyed := false,
                                   tcl_broken := false,
                                   state := [],
                                   text := "Ready to share".data,
                                   foreground := [] },
          screen_label := some { destroyed := false,
                                 tcl_broken := false,
                                 state := [],
                                 text := "No screen sharing active".data,
                                 foreground := [] },
          canvas_visible := false } (some "alice".data)).share_button = some b2
      ∧ b2.state = "disabled".data ∧ b2.text = "alice".data ++ " is sharing".data
      ∧ (update_presenter
        { is_sharing := false,
          current_presenter_name := none,
          share_button := some { destroyed := false,
                                 tcl_broken := false,
                                 state := "normal".data,
                                 text := "Start Screen Share".data,
                                 foreground := [] },
          sharing_status := some { destroyed := false,
                                   tcl_broken := false,
                                   state := [],
                                   text := "Ready to share".data,
                                   foreground := [] },
          screen_label := some { destroyed := false,
                                 tcl_broken := false,
                                 state := [],
                                 text := "No screen sharing active".data,
                                 foreground := [] },
          canvas_visible := false } (some "alice".data)).sharing_status = some s2
      ∧ s2.text = "alice".data ++ " is sharing".data :=
  (update_presenter_display _ _ _ _ rfl rfl rfl rfl rfl rfl rfl rfl rfl rfl).1
    "alice".data (by decide)

/-- C5: after a presenter-role request, `_toggle_screen_share` schedules the
10000 ms call of `_reset_presenter_request_timeout` and puts the button into
the `"Requesting..."` loading state; the timeout handler restores the button
to `'normal'` / `"Request Presenter Role"` with status
`"Request timed out - try again"` exactly when the button text still reads
`"Requesting..."`, and leaves the frame entirely unchanged otherwise. -/
theorem presenter_request_timeout (f : ScreenShareFrame) (b s : TkWidget)
    (hb : f.share_button = some b) (hb1 : b.destroyed = false)
    (hb2 : b.tcl_broken = false)
    (hs : f.sharing_status = some s) (hs1 : s.destroyed = false)
    (hs2 : s.tcl_broken = false) :
    (b.text = "Request Presenter Role".data →
        (toggle_screen_share f true).timers
          = [(10000, TimerEvent.resetPresenterRequestTimeout)]
        ∧ ∃ b2, (toggle_screen_share f true).frame.share_button = some b2
            ∧ b2.text = "Requesting...".data ∧ b2.state = "disabled".data)
    ∧ (b.text = "Requesting...".data →
        ∃ r, reset_presenter_request_timeout f = .ok r
          ∧ (∃ b2, r.frame.share_button = some b2
              ∧ b2.state = "normal".data
              ∧ b2.text = "Request Presenter Role".data)
          ∧ (∃ s2, r.frame.sharing_status = some s2
              ∧ s2.text = "Request timed out - try again".data))
    ∧ (b.text ≠ "Requesting...".data →
        reset_presenter_request_timeout f
          = .ok { frame := f, callback_events := [], timers := [] }) := by
  refine ⟨?_, ?_, ?_⟩
  · intro htext
    constructor
    · simp [toggle_screen_share, hb, hb1, hb2, htext]
    · refine ⟨applyConfig b (cfgStateText "disabled".data "Requesting...".data), ?_, ?_, ?_⟩ <;>
        simp [toggle_screen_share, hb, hs, hb1, hb2, hs1, hs2, htext,
          safe_button_update_alive, safe_label_update_alive,
          applyConfig, cfgStateText, cfgTextFg]
  · intro htext
    have heval : reset_presenter_request_timeout f
        = .ok { frame := { f with
                             share_button := safe_button_update f.share_button
                               (cfgStateText "normal".data "Request Presenter Role".data),
                             sharing_status := safe_label_update f.sharing_status
                               (cfgTextFg "Request timed out - try again".data "red".data) },
                callback_events := [],
                timers := [(3000, TimerEvent.resetStatusToReady)] } := by
      simp [reset_presenter_request_timeout, hb, hb1, hb2, htext]
    rw [heval]
    refine ⟨_, rfl,
      ⟨applyConfig b (cfgStateText "normal".data "Request Presenter Role".data),
        ?_, ?_, ?_⟩,
      ⟨applyConfig s (cfgTextFg "Request timed out - try again".data "red".data),
        ?_, ?_⟩⟩ <;>
      simp [hb, hs, hb1, hb2, hs1, hs2,
        safe_button_update_alive, safe_label_update_alive,
        applyConfig, cfgStateText, cfgTextFg]
  · intro htext
    simp [reset_presenter_request_timeout, hb, hb1, hb2, htext]

/-- Witness for `presenter_request_timeout` at a concrete frame whose button
text is no longer `"Requesting..."`: the timeout handler changes nothing. -/
theorem presenter_request_timeout_witness :
    reset_presenter_request_timeout
      { is_sharing := false,
        current_presenter_name := none,
        share_button := some { destroyed := false,
                               tcl_broken := false,
                               state := "normal".data,
                               text := "Start Screen Share".data,
                               foreground := [] },
        sharing_status := some { destroyed := false,
                                 tcl_broken := false,
                                 state := [],
                                 text := "Ready to share".data,
                                 foreground := [] },
        screen_label := none,
        canvas_visible := false }
      = .ok { frame := { is_sharing := false,
                         current_presenter_name := none,
                         share_button := some { destroyed := false,
                                                tcl_broken := false,
                                                state := "normal".data,
                                                text := "Start Screen Share".data,
                                                foreground := [] },
                         sharing_status := some { destroyed := false,
                                                  tcl_broken := false,
                                                  state := [],
                                                  text := "Ready to share".data,
                                                  foreground := [] },
                         screen_label := none,
                         canvas_visible := false },
              callback_events := [], timers := [] } :=
  (presenter_request_timeout _ _ _ rfl rfl rfl rfl rfl rfl).2.2 (by decide)

/-! ### `AudioFrame` — audio and mute toggles -/

structure AudioFrame where
  enabled : Bool
  muted : Bool
  audio_button_text : List Char
  mute_button_text : List Char
  mute_button_state : List Char
deriving DecidableEq

/-- `AudioFrame.__init__`: audio off, unmuted, mute button disabled. -/
def AudioFrame.init : AudioFrame :=
  { enabled := false, muted := false,
    audio_button_text := "Enable Audio".data,
    mute_button_text := "Mute".data,
    mute_button_state := "disabled".data }

/-- Result of an audio handler: the new frame state and the values passed to
`audio_callback` and `mute_callback`. -/
structure AudioResult where
  frame : AudioFrame
  audio_events : List Bool
  mute_events : List Bool
deriving DecidableEq

/-- `AudioFrame._toggle_audio`: flips `enabled`, relabels the audio button,
enables the mute button exactly when audio is enabled, and calls
`audio_callback(self.enabled and not self.muted)` when a callback is set. -/
def toggle_audio (f : AudioFrame) (audio_cb_set : Bool) : AudioResult :=
  let enabled := !f.enabled
  let f := { f with
               enabled := enabled,
               audio_button_text :=
                 if enabled then "Disable Audio".data else "Enable Audio".data,
               mute_button_state :=
                 if enabled then "normal".data else "disabled".data }
  { frame := f,
    audio_events := if audio_cb_set then [f.enabled && !f.muted] else [],
    mute_events := [] }

/-- `AudioFrame._toggle_mute`: flips `muted`, relabels the mute button, calls
`mute_callback(self.muted)` and then `audio_callback(self.enabled and not
self.muted)` for the callbacks that are set. -/
def toggle_mute (f : AudioFrame) (audio_cb_set mute_cb_set : Bool) : AudioResult :=
  let muted := !f.muted
  let f := { f with
               muted := muted,
               mute_button_text :=
                 if muted then "Unmute".data else "Mute".data }
  { frame := f,
    audio_events := if audio_cb_set then [f.enabled && !f.muted] else [],
    mute_events := if mute_cb_set then [f.muted] else [] }

inductive AudioOp where
  | toggleAudio (audio_cb_set : Bool)
  | toggleMute (audio_cb_set mute_cb_set : Bool)

def applyAudioOp (f : AudioFrame) : AudioOp → AudioResult
  | .toggleAudio a => toggle_audio f a
  | .toggleMute a m => toggle_mute f a m

def applyAudioOps (f : AudioFrame) (ops : List AudioOp) : AudioFrame :=
  ops.foldl (fun f op => (applyAudioOp f op).frame) f

/-- C10: every value either toggle passes to the audio callback equals
`enabled && not muted` of the post-toggle state — so the external layer
receives `True` only when audio is enabled and unmuted — and along every
toggle sequence from the initial state the mute button is `'normal'` exactly
when audio is enabled. -/
theorem audio_callback_mute_invariant :
    (∀ (f : AudioFrame) (op : AudioOp) (v : Bool),
        v ∈ (applyAudioOp f op).audio_events →
        v = ((applyAudioOp f op).frame.enabled && !(applyAudioOp f op).frame.muted))
    ∧ (∀ (f : AudioFrame) (op : AudioOp),
        true ∈ (applyAudioOp f op).audio_events →
        (applyAudioOp f op).frame.enabled = true
          ∧ (applyAudioOp f op).frame.muted = false)
    ∧ (∀ ops : List AudioOp,
        ((applyAudioOps AudioFrame.init ops).mute_button_state = "normal".data ↔
          (applyAudioOps AudioFrame.init ops).enabled = true)) := by
  have hval : ∀ (f : AudioFrame) (op : AudioOp) (v : Bool),
      v ∈ (applyAudioOp f op).audio_events →
      v = ((applyAudioOp f op).frame.enabled && !(applyAudioOp f op).frame.muted) := by
    intro f op v hv
    cases op with
    | toggleAudio a =>
      cases a <;> simp [applyAudioOp, toggle_audio] at hv ⊢ <;> simp [hv]
    | toggleMute a m =>
      cases a <;> simp [applyAudioOp, toggle_mute] at hv ⊢ <;> simp [hv]
  refine ⟨hval, ?_, ?_⟩
  · intro f op htrue
    have h := hval f op true htrue
    constructor
    · cases he : (applyAudioOp f op).frame.enabled
      · rw [he] at h; simp at h
      · rfl
    · cases hm : (applyAudioOp f op).frame.muted
      · rfl
      · rw [hm] at h; simp at h
  · have hstep : ∀ (f : AudioFrame) (op : AudioOp),
        (f.mute_button_state = "normal".data ↔ f.enabled = true) →
        ((applyAudioOp f op).frame.mute_button_state = "normal".data ↔
          (applyAudioOp f op).frame.enabled = true) := by
      intro f op hf
      cases op with
      | toggleAudio a =>
        cases hfe : f.enabled <;>
          simp [applyAudioOp, toggle_audio, hfe]
      | toggleMute a m =>
        simpa [applyAudioOp, toggle_mute] using hf
    intro ops
    suffices h : ∀ (ops : List AudioOp) (f : AudioFrame),
        (f.mute_button_state = "normal".data ↔ f.enabled = true) →
        ((applyAudioOps f ops).mute_button_state = "normal".data ↔
          (applyAudioOps f ops).enabled = true) by
      exact h ops AudioFrame.init (by decide)
    intro ops
    induction ops with
    | nil => intro f hf; simpa [applyAudioOps] using hf
    | cons op ops ih =>
      intro f hf
      have : applyAudioOps f (op :: ops)
          = applyAudioOps ((applyAudioOp f op).frame) ops := by
        simp [applyAudioOps]
      rw [this]
      exact ih _ (hstep f op hf)

/-- Witness for `audio_callback_mute_invariant` at a concrete toggle. -/
theorem audio_callback_mute_invariant_witness :
    (applyAudioOp AudioFrame.init (AudioOp.toggleAudio true)).frame.enabled = true
      ∧ (applyAudioOp AudioFrame.init (AudioOp.toggleAudio true)).frame.muted = false :=
  audio_callback_mute_invariant.2.1 AudioFrame.init (AudioOp.toggleAudio true)
    (by decide)

/-! ### `FileTransferFrame` — shared-file list rendering -/

/-- One value of `self.shared_files` (`filename` / `filesize` / `uploader`). -/
structure FileInfo where
  filename : List Char
  filesize : Nat
  uploader : List Char
deriving DecidableEq, Inhabited

/-- `self.shared_files`: a Python dict from file id to file info, in
insertion order. -/
abbrev SharedFiles := List (List Char × FileInfo)

/-- Python dict assignment `self.shared_files[file_id] = {...}`: an existing
key keeps its position and gets the new value, a new key is appended. -/
def dictInsert (d : SharedFiles) (k : List Char) (v : FileInfo) : SharedFiles :=
  match d with
  | [] => [(k, v)]
  | p :: rest => if p.1 = k then (k, v) :: rest else p :: dictInsert rest k v

/-- Python dict lookup `self.shared_files[file_id]`. -/
def dictLookup (d : SharedFiles) (k : List Char) : Option FileInfo :=
  match d with
  | [] => none
  | p :: rest => if p.1 = k then some p.2 else dictLookup rest k

/-- Round-half-even of `num / den`, as the `:.1f` float formatting rounds
(the quotients `filesize / 1024` and `filesize / 1048576` are exactly
representable in binary floating point for the sizes in use). -/
def roundHalfEven (num den : Nat) : Nat :=
  let q := num / den
  let r := num % den
  if 2 * r < den then q
  else if 2 * r > den then q + 1
  else if q % 2 = 0 then q else q + 1

/-- `f"{num/den:.1f}"` for the exactly-representable quotients used here. -/
def oneDecimal (num den : Nat) : List Char :=
  let t := roundHalfEven (10 * num) den
  natStr (t / 10) ++ '.' :: natStr (t % 10)

/-- The size formatting of `_update_file_list`: bytes below 1024, one
decimal of KB below 1024², one decimal of MB above. -/
def formatSize (filesize : Nat) : List Char :=
  if filesize < 1024 then natStr filesize ++ " B".data
  else if filesize < 1024 * 1024 then oneDecimal filesize 1024 ++ " KB".data
  else oneDecimal filesize (1024 * 1024) ++ " MB".data

/-- One listbox line: `f"{filename} ({size_str}) - {uploader}"`. -/
def displayLine (info : FileInfo) : List Char :=
  info.filename ++ " (".data ++ formatSize info.filesize ++ ") - ".data
    ++ info.uploader

/-- `FileTransferFrame._update_file_list`: clears the listbox and renders
every entry of the dict in order. -/
def update_file_list (d : SharedFiles) : List (List Char) :=
  d.map (fun p => displayLine p.2)

/-- The `FileTransferFrame` state the embedded methods touch. -/
structure FileTransferFrame where
  shared_files : SharedFiles
  file_listbox : List (List Char)
deriving DecidableEq

/-- `FileTransferFrame.add_shared_file`: stores (or overwrites) the entry
under its file id and re-renders the list. -/
def add_shared_file (f : FileTransferFrame) (file_id filename : List Char)
    (filesize : Nat) (uploader : List Char) : FileTransferFrame :=
  let d := dictInsert f.shared_files file_id
    { filename := filename, filesize := filesize, uploader := uploader }
  { shared_files := d, file_listbox := update_file_list d }

theorem dictLookup_insert_self (k : List Char) (v : FileInfo) :
    ∀ d : SharedFiles, dictLookup (dictInsert d k v) k = some v := by
  intro d
  induction d with
  | nil => simp [dictInsert, dictLookup]
  | cons p rest ih =>
    unfold dictInsert
    by_cases hp : p.1 = k
    · simp [hp, dictLookup]
    · simp [hp, dictLookup, ih]

theorem dictLookup_insert_ne (k k' : List Char) (v : FileInfo) (hne : k' ≠ k) :
    ∀ d : SharedFiles, dictLookup (dictInsert d k v) k' = dictLookup d k' := by
  intro d
  induction d with
  | nil =>
    simp only [dictInsert, dictLookup]
    rw [if_neg (fun h => hne h.symm)]
  | cons p rest ih =>
    unfold dictInsert
    by_cases hp : p.1 = k
    · have hp' : ¬ ((k, v).1 = k') := by simp; exact fun h => hne h.symm
      simp only [hp, if_true]
      unfold dictLookup
      simp only [hp']
      rw [if_neg (by simpa using hp'), if_neg (by rw [hp]; exact fun h => hne h.symm)]
    · simp only [hp, if_false]
      unfold dictLookup
      by_cases hq : p.1 = k'
      · simp [hq]
      · simp [hq, ih]

theorem length_dictInsert_present (k : List Char) (v : FileInfo) :
    ∀ d : SharedFiles, (∃ p ∈ d, p.1 = k) →
      (dictInsert d k v).length = d.length := by
  intro d
  induction d with
  | nil => intro h; simp at h
  | cons p rest ih =>
    intro h
    unfold dictInsert
    by_cases hp : p.1 = k
    · simp [hp]
    · rcases h with ⟨q, hq, hqk⟩
      rcases List.mem_cons.mp hq with rfl | hq'
      · exact absurd hqk hp
      · simp only [hp, if_false, List.length_cons]
        rw [ih ⟨q, hq', hqk⟩]

theorem length_dictInsert_absent (k : List Char) (v : FileInfo) :
    ∀ d : SharedFiles, (¬ ∃ p ∈ d, p.1 = k) →
      (dictInsert d k v).length = d.length + 1 := by
  intro d
  induction d with
  | nil => intro _; rfl
  | cons p rest ih =>
    intro h
    unfold dictInsert
    by_cases hp : p.1 = k
    · exact absurd ⟨p, List.mem_cons_self p rest, hp⟩ h
    · simp only [hp, if_false, List.length_cons]
      rw [ih (fun ⟨q, hq, hqk⟩ => h ⟨q, List.mem_cons_of_mem p hq, hqk⟩)]

theorem mem_dictInsert_self (k : List Char) (v : FileInfo) :
    ∀ d : SharedFiles, (k, v) ∈ dictInsert d k v := by
  intro d
  induction d with
  | nil => simp [dictInsert]
  | cons p rest ih =>
    unfold dictInsert
    by_cases hp : p.1 = k
    · simp [hp]
    · simp [hp, ih]

/-- C8: `add_shared_file` stores the entry under its file id — overwriting
an existing id in place instead of duplicating it, leaving other ids
untouched — and the listbox renders one line per dict entry, the new file's
line being `"<filename> (<size>) - <uploader>"` with the size formatted in
B / KB / MB by the 1024 thresholds. -/
theorem file_list_rendering (f : FileTransferFrame) (file_id filename : List Char)
    (filesize : Nat) (uploader : List Char) :
    (dictLookup (add_shared_file f file_id filename filesize uploader).shared_files
        file_id = some (FileInfo.mk filename filesize uploader))
    ∧ (displayLine (FileInfo.mk filename filesize uploader)
        ∈ (add_shared_file f file_id filename filesize uploader).file_listbox)
    ∧ ((add_shared_file f file_id filename filesize uploader).file_listbox
        = ((add_shared_file f file_id filename filesize uploader).shared_files).map
            (fun p => p.2.filename ++ " (".data ++ formatSize p.2.filesize
              ++ ") - ".data ++ p.2.uploader))
    ∧ ((∃ p ∈ f.shared_files, p.1 = file_id) →
        (add_shared_file f file_id filename filesize uploader).shared_files.length
          = f.shared_files.length)
    ∧ ((¬ ∃ p ∈ f.shared_files, p.1 = file_id) →
        (add_shared_file f file_id filename filesize uploader).shared_files.length
          = f.shared_files.length + 1)
    ∧ (∀ k, k ≠ file_id →
        dictLookup (add_shared_file f file_id filename filesize uploader).shared_files k
          = dictLookup f.shared_files k)
    ∧ (filesize < 1024 → formatSize filesize = natStr filesize ++ " B".data)
    ∧ (1024 ≤ filesize → filesize < 1024 * 1024 →
        formatSize filesize = oneDecimal filesize 1024 ++ " KB".data)
    ∧ (1024 * 1024 ≤ filesize →
        formatSize filesize = oneDecimal filesize (1024 * 1024) ++ " MB".data) := by
  refine ⟨?_, ?_, ?_, ?_, ?_, ?_, ?_, ?_, ?_⟩
  · exact dictLookup_insert_self file_id _ f.shared_files
  · have hm := mem_dictInsert_self file_id
      (FileInfo.mk filename filesize uploader) f.shared_files
    unfold add_shared_file update_file_list
    exact List.mem_map.mpr ⟨_, hm, rfl⟩
  · unfold add_shared_file update_file_list displayLine
    simp
  · intro h
    exact length_dictInsert_present file_id _ f.shared_files h
  · intro h
    exact length_dictInsert_absent file_id _ f.shared_files h
  · intro k hk
    exact dictLookup_insert_ne file_id k _ hk f.shared_files
  · intro h
    simp [formatSize, h]
  · intro h1 h2
    simp [formatSize, h1, h2]
  · intro h
    have h1 : ¬ filesize < 1024 := by omega
    have h2 : ¬ filesize < 1024 * 1024 := by omega
    simp [formatSize, h1, h2]

/-- Witness for `file_list_rendering` at a concrete frame and file. -/
theorem file_list_rendering_witness :
    formatSize 2048 = oneDecimal 2048 1024 ++ " KB".data :=
  (file_list_rendering { shared_files := [], file_listbox := [] }
      "f1".data "report.txt".data 2048 "bob".data).2.2.2.2.2.2.2.1
    (by decide) (by decide)

/-! ### `ScreenShareFrame.display_screen_frame` — scaling cache
The cached attributes `_cached_canvas_size`, `_cached_scale`,
`_cached_scale_key` and `_cached_dimensions`, the fallback canvas
dimensions, the aspect-ratio scaling arithmetic (over `ℚ`, with `int()`
as the floor of the non-negative product) and `_reset_screen_cache`. -/

structure ScreenCache where
  cached_canvas_size : Option (Nat × Nat)
  cached_scale : Option ℚ
  cached_scale_key : Option (List Char)
  cached_dimensions : Option (Nat × Nat)
deriving DecidableEq

/-- `_reset_screen_cache`: every cached value back to `None`. -/
def resetScreenCache : ScreenCache :=
  { cached_canvas_size := none, cached_scale := none,
    cached_scale_key := none, cached_dimensions := none }

/-- `scale = max(min(canvas_w/img_w, canvas_h/img_h) * 0.99, 0.3)`. -/
def computeScale (iw ih cw ch : Nat) : ℚ :=
  max (min ((cw : ℚ) / iw) ((ch : ℚ) / ih) * (99 / 100)) (3 / 10)

/-- `new_width = max(int(img_width * scale), 200)`,
`new_height = max(int(img_height * scale), 150)`. -/
def computeDims (iw ih cw ch : Nat) : Nat × Nat :=
  let scale := computeScale iw ih cw ch
  (max (Int.toNat ⌊(iw : ℚ) * scale⌋) 200,
   max (Int.toNat ⌊(ih : ℚ) * scale⌋) 150)

/-- The canvas size a call works with: the cached one if present, otherwise
the actual canvas size with the `(1000, 650)` fallback when either side is
at most 10. -/
def canvasUsed (st : ScreenCache) (cw ch : Nat) : Nat × Nat :=
  match st.cached_canvas_size with
  | some p => p
  | none => if cw ≤ 10 ∨ ch ≤ 10 then (max cw 1000, max ch 650) else (cw, ch)

/-- The dimension bookkeeping of `display_screen_frame`: cache the canvas
size, bail out on a degenerate image, then reuse the cached dimensions when
the scale cache holds this exact `"{iw}x{ih}_{cw}x{ch}"` key and otherwise
compute and cache fresh dimensions. -/
def display_screen_frame_dims (st : ScreenCache) (iw ih cw ch : Nat) :
    Option (Nat × Nat) × ScreenCache :=
  let c := canvasUsed st cw ch
  let st1 := { st with cached_canvas_size := some c }
  if iw = 0 ∨ ih = 0 then (none, st1)
  else
    let key := scaleKey iw ih c.1 c.2
    if st1.cached_scale.isSome = true ∧ st1.cached_scale_key = some key then
      (some (st1.cached_dimensions.getD (0, 0)), st1)
    else
      let d := computeDims iw ih c.1 c.2
      (some d, { st1 with
                   cached_scale := some (computeScale iw ih c.1 c.2),
                   cached_scale_key := some key,
                   cached_dimensions := some d })

/-- The cache-mutating events: displaying a frame, and the cache reset. -/
inductive ScreenOp where
  | display (iw ih cw ch : Nat)
  | reset

def applyScreenOp (st : ScreenCache) : ScreenOp → ScreenCache
  | .display iw ih cw ch => (display_screen_frame_dims st iw ih cw ch).2
  | .reset => resetScreenCache

/-- The cache consistency invariant: a stored key always came from some
inputs whose freshly computed dimensions are exactly the stored ones. -/
def CacheInv (st : ScreenCache) : Prop :=
  ∀ k, st.cached_scale_key = some k →
    ∃ iw ih cw ch, 1 ≤ iw ∧ 1 ≤ ih ∧ k = scaleKey iw ih cw ch ∧
      st.cached_dimensions = some (computeDims iw ih cw ch)

theorem cacheInv_reset : CacheInv resetScreenCache := by
  intro k hk
  simp [resetScreenCache] at hk

theorem display_dims_of_inv (st : ScreenCache) (hinv : CacheInv st)
    (iw ih cw ch : Nat) (h1 : 1 ≤ iw) (h2 : 1 ≤ ih) :
    (display_screen_frame_dims st iw ih cw ch).1
      = some (computeDims iw ih (canvasUsed st cw ch).1 (canvasUsed st cw ch).2) := by
  unfold display_screen_frame_dims
  have hnz : ¬ (iw = 0 ∨ ih = 0) := by omega
  simp only [hnz, if_false]
  by_cases hhit : st.cached_scale.isSome = true ∧
      st.cached_scale_key
        = some (scaleKey iw ih (canvasUsed st cw ch).1 (canvasUsed st cw ch).2)
  · rw [if_pos hhit]
    obtain ⟨iw', ih', cw', ch', _, _, hkeq, hdims⟩ := hinv _ hhit.2
    obtain ⟨e1, e2, e3, e4⟩ := scaleKey_inj hkeq
    simp only [hdims, e1, e2, e3, e4, Option.getD_some]
  · rw [if_neg hhit]

theorem cacheInv_step (st : ScreenCache) (op : ScreenOp) (h : CacheInv st) :
    CacheInv (applyScreenOp st op) := by
  cases op with
  | reset => exact cacheInv_reset
  | display iw ih cw ch =>
    unfold applyScreenOp display_screen_frame_dims
    by_cases hnz : iw = 0 ∨ ih = 0
    · simp only [hnz, if_true]
      intro k hk
      exact h k hk
    · simp only [hnz, if_false]
      by_cases hhit : st.cached_scale.isSome = true ∧
          st.cached_scale_key
            = some (scaleKey iw ih (canvasUsed st cw ch).1 (canvasUsed st cw ch).2)
      · rw [if_pos hhit]
        intro k hk
        exact h k hk
      · rw [if_neg hhit]
        intro k hk
        simp only [Option.some.injEq] at hk
        refine ⟨iw, ih, (canvasUsed st cw ch).1, (canvasUsed st cw ch).2,
          by omega, by omega, hk.symm, rfl⟩

theorem cacheInv_reachable (ops : List ScreenOp) :
    CacheInv (ops.foldl applyScreenOp resetScreenCache) := by
  suffices h : ∀ (ops : List ScreenOp) (st : ScreenCache), CacheInv st →
      CacheInv (ops.foldl applyScreenOp st) by
    exact h ops resetScreenCache cacheInv_reset
  intro ops
  induction ops with
  | nil => intro st hst; simpa using hst
  | cons op ops ih =>
    intro st hst
    simp only [List.foldl_cons]
    exact ih _ (cacheInv_step st op hst)

/-- C6: along every sequence of frame displays and cache resets, the
dimensions `display_screen_frame` produces are exactly the deterministic
function `computeDims` of the image size and the cached canvas size — a
cache hit on the `"{iw}x{ih}_{cw}x{ch}"` key returns precisely what a fresh
computation would, and `_reset_screen_cache` restores the uncached
behaviour. -/
theorem screen_scaling_cache_equiv :
    (∀ (ops : List ScreenOp) (iw ih cw ch : Nat), 1 ≤ iw → 1 ≤ ih →
      (display_screen_frame_dims (ops.foldl applyScreenOp resetScreenCache)
          iw ih cw ch).1
        = some (computeDims iw ih
            (canvasUsed (ops.foldl applyScreenOp resetScreenCache) cw ch).1
            (canvasUsed (ops.foldl applyScreenOp resetScreenCache) cw ch).2))
    ∧ (∀ (st : ScreenCache) (iw ih cw ch : Nat), 1 ≤ iw → 1 ≤ ih →
      (display_screen_frame_dims (applyScreenOp st ScreenOp.reset) iw ih cw ch).1
        = some (computeDims iw ih
            (canvasUsed resetScreenCache cw ch).1
            (canvasUsed resetScreenCache cw ch).2)) := by
  constructor
  · intro ops iw ih cw ch h1 h2
    exact display_dims_of_inv _ (cacheInv_reachable ops) iw ih cw ch h1 h2
  · intro st iw ih cw ch h1 h2
    exact display_dims_of_inv resetScreenCache cacheInv_reset iw ih cw ch h1 h2

/-- Witness for `screen_scaling_cache_equiv`: a repeated frame on the same
canvas after one prior display (a cache hit) yields the fresh computation. -/
theorem screen_scaling_cache_equiv_witness :
    (display_screen_frame_dims
        ([ScreenOp.display 640 480 800 600].foldl applyScreenOp resetScreenCache)
        640 480 800 600).1
      = some (computeDims 640 480
          (canvasUsed
            ([ScreenOp.display 640 480 800 600].foldl applyScreenOp
              resetScreenCache) 800 600).1
          (canvasUsed
            ([ScreenOp.display 640 480 800 600].foldl applyScreenOp
              resetScreenCache) 800 600).2) :=
  screen_scaling_cache_equiv.1 [ScreenOp.display 640 480 800 600]
    640 480 800 600 (by decide) (by decide)

end CnVideo
